import Mathlib

/-!
Shallow embedding of `src/backend/main.py` (VentureVision), a Flask service
with one pipeline endpoint `POST /analyze`.

Modelling conventions:
- Python JSON-like values are the inductive `Json`.
- The two outbound collaborators (OpenAI chat completions, `requests.post`)
  and the Python standard-library JSON parser `json.loads` are oracles
  collected in the `Upstream` record; pipeline functions take the record as
  an explicit argument.  A call that raises a Python exception is modelled
  by the oracle returning `Except.error`.
- Python operations that can raise (`dict.get` on a non-dict, subscripting,
  `str.join` over a non-string sequence, item assignment) are embedded as
  `Except Err` computations mirroring `AttributeError` / `KeyError` /
  `TypeError`.
- An unhandled exception escaping the Flask view function is surfaced by the
  framework as an HTTP 5xx response; in the embedding this is the
  `Except.error` outcome of `analyze`, while `Except.ok (status, body)` is a
  response the view built itself.
- `pyStrip` models `str.strip` and `pySplitComma` models `str.split(",")`,
  written by structural recursion so that concrete runs reduce in the
  kernel (they agree with Python on ASCII input).
-/

/-- Python/JSON values (dicts keep insertion order, as Python dicts do). -/
inductive Json where
  | null : Json
  | bool : Bool → Json
  | num : Int → Json
  | str : String → Json
  | arr : List Json → Json
  | obj : List (String × Json) → Json
deriving Repr

/-- Python exceptions that the embedded code can raise, plus errors raised
inside the upstream oracles themselves. -/
inductive Err where
  | attributeError : Err
  | keyError : String → Err
  | typeError : String → Err
  | upstream : String → Err
deriving Repr, DecidableEq

/-- A `chat.completions.create` request: the single user message content,
the model, `max_tokens`, and temperature in tenths (0.3 is stored as 3). -/
structure ChatReq where
  model : String
  prompt : String
  max_tokens : Nat
  temperature10 : Nat
deriving Repr, DecidableEq

/-- An HTTP response as seen through the `requests` library: status code,
raw text, and the result of calling `.json()` on it (which can raise). -/
structure HttpResp where
  status_code : Nat
  text : String
  jsonBody : Except Err Json

/-- A `requests.post(url, headers=..., json=payload)` request. -/
structure PostReq where
  url : String
  headers : List (String × String)
  body : Json

/-- The external collaborators of the pipeline: the LLM chat-completion
capability (returns the first choice message content), the HTTP post
capability, the standard-library JSON parser (`none` models a parse
exception), and the Product Hunt bearer token from the environment. -/
structure Upstream where
  chat : ChatReq → Except Err String
  post : PostReq → Except Err HttpResp
  json_loads : String → Option Json
  producthunt_token : String

namespace Json

/-- First binding of a key in an object field list (Python dict lookup). -/
def lookup : List (String × Json) → String → Option Json
  | [], _ => none
  | (k2, v) :: fs, k => if k2 == k then some v else lookup fs k

/-- Whether a key is bound in an object field list (Python `k in d`). -/
def hasKey : List (String × Json) → String → Bool
  | [], _ => false
  | (k2, _) :: fs, k => k2 == k || hasKey fs k

/-- Replace every binding of a key by a new value, keeping its position. -/
def replaceKey : List (String × Json) → String → Json → List (String × Json)
  | [], _, _ => []
  | (k2, v2) :: fs, k, v =>
      (if k2 == k then (k2, v) else (k2, v2)) :: replaceKey fs k v

/-- Python `d.get(k, default)`: raises `AttributeError` when the receiver is
not a dict. -/
def dictGet : Json → String → Json → Except Err Json
  | .obj fs, k, dflt => .ok ((lookup fs k).getD dflt)
  | _, _, _ => .error .attributeError

/-- Python subscript `d[k]` with a string key: `KeyError` on a missing dict
key, `TypeError` on non-dict receivers. -/
def item : Json → String → Except Err Json
  | .obj fs, k =>
      match lookup fs k with
      | some v => .ok v
      | none => .error (.keyError k)
  | _, k => .error (.typeError k)

/-- Python item assignment `d[k] = v`: replaces the value in place when the
key exists, appends the binding otherwise (dict insertion order), and raises
`TypeError` on non-dict receivers. -/
def setItem : Json → String → Json → Except Err Json
  | .obj fs, k, v =>
      if hasKey fs k then .ok (.obj (replaceKey fs k v))
      else .ok (.obj (fs ++ [(k, v)]))
  | _, k, _ => .error (.typeError k)

/-- Python truthiness of a JSON-like value (`if not user_idea`). -/
def truthy : Json → Bool
  | .null => false
  | .bool b => b
  | .num n => n != 0
  | .str s => !s.isEmpty
  | .arr xs => !xs.isEmpty
  | .obj fs => !fs.isEmpty

mutual
/-- Python `str()` as used inside f-strings.  Exact for strings, integers,
booleans and `None`; container rendering approximates `repr` (elements are
rendered without quoting, which no claim depends on). -/
def pyStr : Json → String
  | .null => "None"
  | .bool b => if b then "True" else "False"
  | .num n => toString n
  | .str s => s
  | .arr xs => "[" ++ pyStrList xs ++ "]"
  | .obj fs => "\x7b" ++ pyStrFields fs ++ "\x7d"

def pyStrList : List Json → String
  | [] => ""
  | [x] => pyStr x
  | x :: xs => pyStr x ++ ", " ++ pyStrList xs

def pyStrFields : List (String × Json) → String
  | [] => ""
  | [kv] => kv.1 ++ ": " ++ pyStr kv.2
  | kv :: fs => kv.1 ++ ": " ++ pyStr kv.2 ++ ", " ++ pyStrFields fs
end

/-- The string sequence Python `sep.join(x)` iterates: a list must contain
only strings (`TypeError` otherwise), a string yields its characters, a dict
yields its keys, anything else is not iterable. -/
def joinable : Json → Except Err (List String)
  | .arr xs =>
      xs.mapM (fun x =>
        match x with
        | .str s => .ok s
        | _ => .error (.typeError "sequence item: expected str instance"))
  | .str s => .ok (s.toList.map (fun c => String.mk [c]))
  | .obj fs =>
      .ok (fs.map (fun kv => kv.1))
  | _ => .error (.typeError "can only join an iterable")

/-- What Python `for p in x` iterates: list elements, string characters, or
dict keys; other values raise `TypeError`. -/
def pyIter : Json → Except Err (List Json)
  | .arr xs => .ok xs
  | .str s => .ok (s.toList.map (fun c => .str (String.mk [c])))
  | .obj fs => .ok (fs.map (fun kv => .str kv.1))
  | _ => .error (.typeError "object is not iterable")

end Json

/-- The ASCII whitespace characters `str.strip` removes. -/
def pyWhitespace (c : Char) : Bool :=
  c == ' ' || c == '\t' || c == '\n' || c == '\r' || c == '\x0b' || c == '\x0c'

/-- Python `s.strip()`: drop leading and trailing whitespace. -/
def pyStrip (s : String) : String :=
  String.mk (((s.data.dropWhile pyWhitespace).reverse.dropWhile pyWhitespace).reverse)

/-- Splitting a character list at every comma; the empty list yields one
empty group, as Python `"".split(",") == [""]`. -/
def splitCommaChars : List Char → List (List Char)
  | [] => [[]]
  | c :: cs =>
      match splitCommaChars cs with
      | [] => if c == ',' then [[], []] else [[c]]
      | g :: gs => if c == ',' then [] :: g :: gs else (c :: g) :: gs

/-- Python `s.split(",")`. -/
def pySplitComma (s : String) : List String :=
  (splitCommaChars s.data).map String.mk

/-- The f-string prompt template of `analyze_idea` (triple-quoted, so it
begins and ends with a newline; the escaped quotes render literally). -/
def analyze_prompt (idea_text : String) : String :=
  "\nExtract the following from the business idea below:\n- 5 keywords (comma-separated)\n- Industry/domain\n- Target audience\n- Unique selling points (USPs, bullet list)\nBusiness Idea:\n\"\"\"" ++ idea_text ++ "\"\"\"\nReturn as JSON with keys: keywords, domain, target_audience, usps.\n"

/-- The chat request built by `analyze_idea`: model gpt-4o, 300 max tokens,
temperature 0.3. -/
def analyze_req (idea_text : Json) : ChatReq :=
  { model := "gpt-4o", prompt := analyze_prompt idea_text.pyStr,
    max_tokens := 300, temperature10 := 3 }

/-- Function `analyze_idea`: one LLM call, strip the content, try `json.loads`,
fall back to a raw-text wrapper object on parse failure. -/
def analyze_idea (env : Upstream) (idea_text : Json) : Except Err Json := do
  let content ← env.chat (analyze_req idea_text)
  let text := pyStrip content
  match env.json_loads text with
  | some parsed => pure parsed
  | none => pure (Json.obj [("raw", Json.str text)])

/-- The GraphQL document sent by `search_product_hunt` (verbatim from the
triple-quoted Python literal, including its indentation; braces written with
hex escapes). -/
def search_query : String :=
  "\n    query SearchProducts($term: String!) \x7b\n      posts(query: $term, order: VOTES, first: 5) \x7b\n        edges \x7b\n          node \x7b\n            id\n            name\n            tagline\n            description\n            url\n            createdAt\n            votesCount\n            commentsCount\n            topics \x7b edges \x7b node \x7b name \x7d \x7d \x7d\n            makers \x7b edges \x7b node \x7b name, username \x7d \x7d \x7d\n          \x7d\n        \x7d\n      \x7d\n    \x7d\n    "

/-- The single POST request `search_product_hunt` issues for a given search
term: fixed URL, bearer-token / content-type / user-agent / accept headers,
and the payload carrying the query document and the term variable. -/
def search_post_req (token : String) (term : String) : PostReq :=
  { url := "https://api.producthunt.com/v2/api/graphql",
    headers :=
      [("Authorization", "Bearer " ++ token),
       ("Content-Type", "application/json"),
       ("User-Agent", "Mozilla/5.0 (Macintosh; Intel Mac OS X 10_15_7) AppleWebKit/537.36 (KHTML, like Gecko) Chrome/110.0.0.0 Safari/537.36"),
       ("Accept", "application/json")],
    body := Json.obj
      [("query", Json.str search_query),
       ("variables", Json.obj [("term", Json.str term)])] }

/-- The per-result extraction done inside the `for p in posts` loop of
`search_product_hunt`: `node = p["node"]`, then a dict literal with the
seven product fields, flattening `topics.edges[*].node.name`. -/
def extract_post (p : Json) : Except Err Json := do
  let node ← p.item "node"
  let name ← node.item "name"
  let tagline ← node.item "tagline"
  let description ← node.item "description"
  let url ← node.item "url"
  let created_at ← node.item "createdAt"
  let votes ← node.item "votesCount"
  let topicsField ← node.item "topics"
  let topicEdges ← topicsField.item "edges"
  let topicEdgeList ← topicEdges.pyIter
  let topicNames ← topicEdgeList.mapM (fun t => do
    let tnode ← t.item "node"
    tnode.item "name")
  pure (Json.obj
    [("name", name),
     ("tagline", tagline),
     ("description", description),
     ("url", url),
     ("created_at", created_at),
     ("votes", votes),
     ("topics", Json.arr topicNames)])

/-- Function `search_product_hunt`: joins the keywords with comma+space into one
search term, posts the GraphQL query, and on a 200 response maps every
returned edge to a product record; on any other status it logs and returns
the empty list.  The argument is the Python value bound to `keywords` in
the caller (a list after normalization, but in general any value, matching
the dynamic typing of the source). -/
def search_product_hunt (env : Upstream) (keywords : Json) : Except Err (List Json) := do
  let ks ← keywords.joinable
  let term := String.intercalate ", " ks
  let resp ← env.post (search_post_req env.producthunt_token term)
  if resp.status_code == 200 then do
    let data ← resp.jsonBody
    let d1 ← data.dictGet "data" (Json.obj [])
    let d2 ← d1.dictGet "posts" (Json.obj [])
    let edgesVal ← d2.dictGet "edges" (Json.arr [])
    let posts ← edgesVal.pyIter
    posts.mapM extract_post
  else
    pure []

/-- The f-string prompt template of `summarize_product`. -/
def summarize_prompt (name tagline description topics : String) : String :=
  "Summarize the following product in 2 sentences for a founder. Highlight its unique aspects.\nProduct info:\nName: " ++ name ++ "\nTagline: " ++ tagline ++ "\nDescription: " ++ description ++ "\nTopics: " ++ topics ++ "\n"

/-- Function `summarize_product`: builds the prompt from the product fields (the
topics list joined with comma+space) and makes one LLM call with 100 max
tokens at temperature 0.2, returning the stripped content. -/
def summarize_product (env : Upstream) (product : Json) : Except Err String := do
  let name ← product.item "name"
  let tagline ← product.item "tagline"
  let description ← product.item "description"
  let topicsVal ← product.item "topics"
  let topicStrs ← topicsVal.joinable
  let prompt := summarize_prompt name.pyStr tagline.pyStr description.pyStr
      (String.intercalate ", " topicStrs)
  let content ← env.chat
    { model := "gpt-4o", prompt := prompt, max_tokens := 100, temperature10 := 2 }
  pure (pyStrip content)

/-- The f-string prompt template of `suggest_competitive_advantage`. -/
def advise_prompt (user_idea joined_summaries : String) : String :=
  "\nGiven the user\x27s business idea:\n\"\"\"" ++ user_idea ++ "\"\"\"\n\nAnd these existing products:\n" ++ joined_summaries ++ "\n\nSuggest 3 actionable ways the user can gain a competitive advantage.\nOutput as a bullet list.\n"

/-- The chat request built by `suggest_competitive_advantage`: 150 max
tokens, temperature 0.5. -/
def advise_req (user_idea : Json) (joined_summaries : String) : ChatReq :=
  { model := "gpt-4o", prompt := advise_prompt user_idea.pyStr joined_summaries,
    max_tokens := 150, temperature10 := 5 }

/-- Function `suggest_competitive_advantage`: numbers and joins the product summaries
with blank lines, builds the prompt from the idea and that text, and makes
one LLM call, returning the stripped content. -/
def suggest_competitive_advantage (env : Upstream) (user_idea : Json)
    (found_products : List Json) : Except Err String := do
  let numbered ← (List.range found_products.length).zip found_products |>.mapM
    (fun iprod => do
      let s ← iprod.2.item "summary"
      pure (toString (iprod.1 + 1) ++ ". " ++ s.pyStr))
  let joined_summaries := String.intercalate "\n\n" numbered
  let content ← env.chat (advise_req user_idea joined_summaries)
  pure (pyStrip content)

/-- The `isinstance(keywords, str)` normalization inside the `analyze` view:
a comma-joined string is split on commas and each piece stripped; any other
value is passed through unchanged. -/
def keywords_normalize : Json → Json
  | .str s => Json.arr (((pySplitComma s).map pyStrip).map Json.str)
  | j => j

/-- Steps 2-5 of the `analyze` view (search, per-product summarization,
advice, response assembly), taking the already-normalized keywords value.
This is the code path the orchestrator runs after the analysis step. -/
def pipeline_after_analysis (env : Upstream) (user_idea analysis keywords : Json) :
    Except Err (Nat × Json) := do
  let products ← search_product_hunt env keywords
  let products ← products.mapM (fun prod => do
    let s ← summarize_product env prod
    prod.setItem "summary" (Json.str s))
  let comp_adv ← suggest_competitive_advantage env user_idea products
  pure (200, Json.obj
    [("analysis", analysis),
     ("similar_products", Json.arr products),
     ("competitive_advantage", Json.str comp_adv)])

/-- The `POST /analyze` view function: reads `idea` from the request JSON
body (defaulting to the empty string), returns 400 on a falsy idea, and
otherwise runs analysis, keyword normalization, search, summarization and
advice, assembling the three-key response object.  `Except.error` is an
unhandled exception, which Flask surfaces as an HTTP 5xx response. -/
def analyze (env : Upstream) (data : Json) : Except Err (Nat × Json) := do
  let user_idea ← data.dictGet "idea" (Json.str "")
  if !user_idea.truthy then
    pure (400, Json.obj [("error", Json.str "No idea provided")])
  else do
    let analysis ← analyze_idea env user_idea
    let kwRaw ← analysis.dictGet "keywords" (Json.arr [])
    let keywords := keywords_normalize kwRaw
    let products ← search_product_hunt env keywords
    let products ← products.mapM (fun prod => do
      let s ← summarize_product env prod
      prod.setItem "summary" (Json.str s))
    let comp_adv ← suggest_competitive_advantage env user_idea products
    pure (200, Json.obj
      [("analysis", analysis),
       ("similar_products", Json.arr products),
       ("competitive_advantage", Json.str comp_adv)])



/-- Step 3 of the `analyze` view as a standalone map: each product is
summarized and the summary stored under its `summary` key (the same
per-element computation the view runs in its `for` loop). -/
def enrich_products (env : Upstream) (products : List Json) : Except Err (List Json) :=
  products.mapM (fun prod => do
    let s ← summarize_product env prod
    prod.setItem "summary" (Json.str s))

/-- The upstream nesting of one topic name inside the GraphQL edge/node
wrapping that `extract_post` flattens. -/
def topic_edge (t : String) : Json :=
  Json.obj [("node", Json.obj [("name", Json.str t)])]


/-! ## Concrete stub collaborators used by witnesses and counterexamples -/

/-- A structured analysis object as the prompt schema requests, with the
keyword field returned as one comma-joined string. -/
def happyAnalysis : Json :=
  Json.obj
    [("keywords", Json.str "ai, finance, saas"),
     ("domain", Json.str "fintech"),
     ("target_audience", Json.str "founders"),
     ("usps", Json.arr [Json.str "fast"])]

/-- One GraphQL post node in the shape the Product Hunt API returns. -/
def sampleNode : Json :=
  Json.obj
    [("id", Json.str "1"),
     ("name", Json.str "Acme"),
     ("tagline", Json.str "Tag"),
     ("description", Json.str "Desc"),
     ("url", Json.str "u"),
     ("createdAt", Json.str "2020"),
     ("votesCount", Json.num 10),
     ("commentsCount", Json.num 2),
     ("topics", Json.obj [("edges", Json.arr [Json.obj [("node", Json.obj [("name", Json.str "AI")])]])]),
     ("makers", Json.obj [("edges", Json.arr [])])]

/-- A full 200 search-response body holding one post. -/
def sampleSearchBody : Json :=
  Json.obj [("data", Json.obj [("posts", Json.obj [("edges", Json.arr [Json.obj [("node", sampleNode)]])])])]

/-- The product record `extract_post` derives from `sampleNode`. -/
def sampleProduct : Json :=
  Json.obj
    [("name", Json.str "Acme"),
     ("tagline", Json.str "Tag"),
     ("description", Json.str "Desc"),
     ("url", Json.str "u"),
     ("created_at", Json.str "2020"),
     ("votes", Json.num 10),
     ("topics", Json.arr [Json.str "AI"])]

/-- Deterministic stub collaborators for the all-steps-succeed path.  The
three LLM call sites are told apart by their distinct `max_tokens` budgets
(300 analysis, 100 summary, 150 advice, as in the source). -/
def happyEnv : Upstream :=
  { chat := fun r =>
      if r.max_tokens == 300 then .ok "whatever the model said"
      else if r.max_tokens == 100 then .ok " Great product. "
      else .ok " - Differentiate on price. ",
    post := fun _ => .ok { status_code := 200, text := "", jsonBody := .ok sampleSearchBody },
    json_loads := fun _ => some happyAnalysis,
    producthunt_token := "t" }

/-- Stub collaborators where the analyzer text does not parse as JSON and
the product-discovery API answers HTTP 500. -/
def degradedEnv : Upstream :=
  { chat := fun r =>
      if r.max_tokens == 300 then .ok " sorry, I cannot do that "
      else if r.max_tokens == 100 then .ok " Great product. "
      else .ok " - Differentiate on price. ",
    post := fun _ => .ok { status_code := 500, text := "Internal Server Error", jsonBody := .ok Json.null },
    json_loads := fun _ => none,
    producthunt_token := "t" }

/-- Stub collaborators where every summarizer call succeeds but returns an
empty completion, while search yields one product. -/
def emptySummaryEnv : Upstream :=
  { chat := fun r => if r.max_tokens == 100 then .ok "" else .ok "x",
    post := fun _ => .ok { status_code := 200, text := "", jsonBody := .ok sampleSearchBody },
    json_loads := fun _ => none,
    producthunt_token := "t" }

/-- Stub collaborators where the summarizer call raises. -/
def failingSummaryEnv : Upstream :=
  { chat := fun r => if r.max_tokens == 100 then .error (.upstream "boom") else .ok "x",
    post := fun _ => .ok { status_code := 200, text := "", jsonBody := .ok sampleSearchBody },
    json_loads := fun _ => none,
    producthunt_token := "t" }

/-- The analyzer text `\x7b"raw": "x", "keywords": []\x7d`, which is valid
JSON; Python `json.loads` maps it to a dict binding both `raw` and
`keywords`. -/
def bothVariantsText : String := "\x7b\"raw\": \"x\", \"keywords\": []\x7d"

/-- The dict Python `json.loads` returns for `bothVariantsText`. -/
def bothVariantsObj : Json :=
  Json.obj [("raw", Json.str "x"), ("keywords", Json.arr [])]

/-- Stub collaborators whose analyzer call returns `bothVariantsText`, with
the JSON parser behaving exactly as `json.loads` does on that text. -/
def bothVariantsEnv : Upstream :=
  { chat := fun _ => .ok bothVariantsText,
    post := fun _ => .ok { status_code := 500, text := "", jsonBody := .ok Json.null },
    json_loads := fun s => if s == bothVariantsText then some bothVariantsObj else none,
    producthunt_token := "t" }



/-- The record `sampleProduct` after the summarizer stored the stripped happy-path
summary. -/
def sampleProductSummarized : Json :=
  Json.obj
    [("name", Json.str "Acme"),
     ("tagline", Json.str "Tag"),
     ("description", Json.str "Desc"),
     ("url", Json.str "u"),
     ("created_at", Json.str "2020"),
     ("votes", Json.num 10),
     ("topics", Json.arr [Json.str "AI"]),
     ("summary", Json.str "Great product.")]

/-- The full response body of the happy-path run under `happyEnv`. -/
def happyResponse : Json :=
  Json.obj
    [("analysis", happyAnalysis),
     ("similar_products", Json.arr [sampleProductSummarized]),
     ("competitive_advantage", Json.str "- Differentiate on price.")]

/-- The record `sampleProduct` after a summarizer call that succeeded with an empty
completion. -/
def emptySummaryProduct : Json :=
  Json.obj
    [("name", Json.str "Acme"),
     ("tagline", Json.str "Tag"),
     ("description", Json.str "Desc"),
     ("url", Json.str "u"),
     ("created_at", Json.str "2020"),
     ("votes", Json.num 10),
     ("topics", Json.arr [Json.str "AI"]),
     ("summary", Json.str "")]


/-! ## Helper lemmas -/

/-- Mapping with `mapM` into `Except` preserves length on success. -/
theorem mapM_ok_length {α β : Type} (f : α → Except Err β) :
    ∀ (xs : List α) (ys : List β), xs.mapM f = .ok ys → ys.length = xs.length := by
  intro xs
  induction xs with
  | nil =>
      intro ys h
      rw [List.mapM_nil] at h
      simp only [Pure.pure, Except.pure, Except.ok.injEq] at h
      simp [← h]
  | cons x xs ih =>
      intro ys h
      rw [List.mapM_cons] at h
      cases hx : f x with
      | error e => rw [hx] at h; simp [Bind.bind, Except.bind] at h
      | ok b =>
          rw [hx] at h
          cases hrest : xs.mapM f with
          | error e =>
              rw [hrest] at h
              simp [Bind.bind, Except.bind, Pure.pure, Except.pure] at h
          | ok bs =>
              rw [hrest] at h
              simp [Bind.bind, Except.bind, Pure.pure, Except.pure] at h
              subst h
              simp [ih bs hrest]

/-- The `analyze` view agrees with `pipeline_after_analysis` once the
analysis value and the normalized keywords are fixed. -/
theorem analyze_eq_pipeline (env : Upstream) (data user_idea a kw : Json)
    (hidea : data.dictGet "idea" (Json.str "") = .ok user_idea)
    (ht : user_idea.truthy = true)
    (ha : analyze_idea env user_idea = .ok a)
    (hkw : a.dictGet "keywords" (Json.arr []) = .ok kw) :
    analyze env data = pipeline_after_analysis env user_idea a (keywords_normalize kw) := by
  unfold analyze pipeline_after_analysis
  rw [hidea]
  simp only [Bind.bind, Except.bind, ht, Bool.not_true, Bool.false_eq_true, if_false, ha, hkw]

/-- Reduction of a bind whose first component is a success. -/
theorem bind_ok_eq {α β : Type} (a : α) (f : α → Except Err β) :
    Except.bind (Except.ok a) f = f a := rfl

/-- Reduction of a bind whose first component raised. -/
theorem bind_error_eq {α β : Type} (e : Err) (f : α → Except Err β) :
    Except.bind (Except.error e) f = Except.error e := rfl

/-- Inversion for a successful `Except` bind. -/
theorem except_bind_ok {α β : Type} {x : Except Err α} {f : α → Except Err β} {b : β}
    (h : Except.bind x f = .ok b) : ∃ a, x = .ok a ∧ f a = .ok b := by
  cases x with
  | error e => simp [Except.bind] at h
  | ok a => exact ⟨a, rfl, by simpa [Except.bind] using h⟩

/-- After replacing the value at an existing key, lookup finds the new
value. -/
theorem lookup_replaceKey (k : String) (v : Json) :
    ∀ fs : List (String × Json), Json.hasKey fs k = true →
      Json.lookup (Json.replaceKey fs k v) k = some v := by
  intro fs
  induction fs with
  | nil => intro h; simp [Json.hasKey] at h
  | cons kv fs ih =>
      intro h
      obtain ⟨k2, v2⟩ := kv
      simp only [Json.replaceKey]
      by_cases hkv : (k2 == k) = true
      · rw [if_pos hkv]
        simp only [Json.lookup]
        rw [if_pos hkv]
      · rw [if_neg hkv]
        simp only [Json.lookup]
        rw [if_neg hkv]
        apply ih
        simpa [Json.hasKey, hkv] using h

/-- Appending a fresh binding makes lookup find it when the key was
absent. -/
theorem lookup_append_fresh (k : String) (v : Json) :
    ∀ fs : List (String × Json), Json.hasKey fs k = false →
      Json.lookup (fs ++ [(k, v)]) k = some v := by
  intro fs
  induction fs with
  | nil => intro _; simp [Json.lookup]
  | cons kv fs ih =>
      intro h
      obtain ⟨k2, v2⟩ := kv
      simp only [Json.hasKey, Bool.or_eq_false_iff] at h
      rw [List.cons_append]
      simp only [Json.lookup]
      rw [if_neg (by simp [h.1])]
      exact ih h.2

/-- Reading back the key just assigned by `setItem` yields the assigned
value. -/
theorem setItem_item {fs : List (String × Json)} {k : String} {v j2 : Json}
    (h : Json.setItem (Json.obj fs) k v = .ok j2) : j2.item k = .ok v := by
  simp only [Json.setItem] at h
  by_cases hf : Json.hasKey fs k = true
  · rw [if_pos hf] at h
    injection h with h
    subst h
    simp [Json.item, lookup_replaceKey k v fs hf]
  · rw [if_neg hf] at h
    injection h with h
    subst h
    simp [Json.item, lookup_append_fresh k v fs (Bool.eq_false_iff.mpr hf)]

/-- Inversion of a successful `analyze` run: a 200 response determines the
intermediate values of all five pipeline steps. -/
theorem analyze_ok_inv (env : Upstream) (data user_idea : Json) (res : Nat × Json)
    (hidea : data.dictGet "idea" (Json.str "") = .ok user_idea)
    (ht : user_idea.truthy = true)
    (hok : analyze env data = .ok res) :
    ∃ a kw ps0 ps c,
      analyze_idea env user_idea = .ok a ∧
      a.dictGet "keywords" (Json.arr []) = .ok kw ∧
      search_product_hunt env (keywords_normalize kw) = .ok ps0 ∧
      enrich_products env ps0 = .ok ps ∧
      suggest_competitive_advantage env user_idea ps = .ok c ∧
      res = (200, Json.obj
        [("analysis", a),
         ("similar_products", Json.arr ps),
         ("competitive_advantage", Json.str c)]) := by
  unfold analyze at hok
  simp only [Bind.bind] at hok
  obtain ⟨ui, hui, hok⟩ := except_bind_ok hok
  rw [hidea] at hui
  injection hui with hui
  subst hui
  rw [ht] at hok
  simp only [Bool.not_true, Bool.false_eq_true, if_false] at hok
  obtain ⟨a, ha, hok⟩ := except_bind_ok hok
  obtain ⟨kw, hkw, hok⟩ := except_bind_ok hok
  obtain ⟨ps0, hps0, hok⟩ := except_bind_ok hok
  obtain ⟨ps, hps, hok⟩ := except_bind_ok hok
  obtain ⟨c, hc, hok⟩ := except_bind_ok hok
  simp only [Pure.pure, Except.pure, Except.ok.injEq] at hok
  exact ⟨a, kw, ps0, ps, c, ha, hkw, hps0, hps, hc, hok.symm⟩


/-- Every product in a successfully enriched batch stems from an input
product whose summarization succeeded and carries that summary. -/
theorem enrich_products_mem (env : Upstream) :
    ∀ (ps0 ps : List Json), enrich_products env ps0 = .ok ps →
      ∀ p ∈ ps, ∃ p0 ∈ ps0, ∃ s,
        summarize_product env p0 = .ok s ∧
        p0.setItem "summary" (Json.str s) = .ok p ∧
        p.item "summary" = .ok (Json.str s) := by
  intro ps0
  induction ps0 with
  | nil =>
      intro ps h p hp
      unfold enrich_products at h
      rw [List.mapM_nil] at h
      simp only [Pure.pure, Except.pure, Except.ok.injEq] at h
      subst h
      simp at hp
  | cons x xs ih =>
      intro ps h p hp
      unfold enrich_products at h
      rw [List.mapM_cons] at h
      simp only [Bind.bind] at h
      obtain ⟨y, hy, h⟩ := except_bind_ok h
      obtain ⟨ys, hys, h⟩ := except_bind_ok h
      simp only [Pure.pure, Except.pure, Except.ok.injEq] at h
      subst h
      obtain ⟨s, hs, hset⟩ := except_bind_ok hy
      rcases List.mem_cons.mp hp with hp | hp
      · subst hp
        refine ⟨x, List.mem_cons_self x xs, s, hs, hset, ?_⟩
        cases x with
        | obj fs => exact setItem_item hset
        | null => simp [Json.setItem] at hset
        | bool b => simp [Json.setItem] at hset
        | num n => simp [Json.setItem] at hset
        | str s2 => simp [Json.setItem] at hset
        | arr xs2 => simp [Json.setItem] at hset
      · obtain ⟨p0, hp0, rest⟩ := ih ys hys p hp
        exact ⟨p0, List.mem_cons_of_mem x hp0, rest⟩

/-- Flattening the mapped topic edges recovers the list of topic names. -/
theorem topics_mapM (ts : List String) :
    (ts.map topic_edge).mapM (fun t => do
        let tnode ← t.item "node"
        tnode.item "name") = .ok (ts.map Json.str) := by
  induction ts with
  | nil => rfl
  | cons t ts ih =>
      rw [List.map_cons, List.mapM_cons, ih]
      rfl

/-- Applying `extract_post` on a node of the documented GraphQL response shape
produces the seven-field product record with flattened topic names. -/
theorem extract_post_node (idv name tagline description url createdAt votes cc makers : Json)
    (ts : List String) :
    extract_post (Json.obj [("node", Json.obj
        [("id", idv),
         ("name", name),
         ("tagline", tagline),
         ("description", description),
         ("url", url),
         ("createdAt", createdAt),
         ("votesCount", votes),
         ("commentsCount", cc),
         ("topics", Json.obj [("edges", Json.arr (ts.map topic_edge))]),
         ("makers", makers)])]) =
      .ok (Json.obj
        [("name", name),
         ("tagline", tagline),
         ("description", description),
         ("url", url),
         ("created_at", createdAt),
         ("votes", votes),
         ("topics", Json.arr (ts.map Json.str))]) := by
  show Except.bind ((ts.map topic_edge).mapM (fun t => do
      let tnode ← t.item "node"
      tnode.item "name"))
    (fun topicNames => pure (Json.obj
        [("name", name),
         ("tagline", tagline),
         ("description", description),
         ("url", url),
         ("created_at", createdAt),
         ("votes", votes),
         ("topics", Json.arr topicNames)])) = _
  rw [topics_mapM ts]
  rfl

/-! ## Claims -/

/-- C2: for every request body that omits `idea` or binds it to the empty
string, the endpoint returns exactly status 400 with body
`\x7b"error": "No idea provided"\x7d`; the result is the same for every
choice of upstream collaborators, so none of the later pipeline steps
(analyze, search, summarize, advise) can influence it, i.e. they never
run. -/
theorem c2_missing_or_empty_idea_yields_400 (env : Upstream)
    (fs : List (String × Json))
    (h : Json.lookup fs "idea" = none ∨ Json.lookup fs "idea" = some (Json.str "")) :
    analyze env (Json.obj fs) =
      .ok (400, Json.obj [("error", Json.str "No idea provided")]) := by
  unfold analyze
  simp only [Bind.bind, Json.dictGet]
  have hfalsy : Json.truthy (Json.str "") = false := rfl
  rcases h with h | h <;>
    simp [h, Except.bind, hfalsy, Pure.pure, Except.pure]

/-- Witness for C2 at two concrete bodies: one omitting `idea`, one binding
it to the empty string. -/
theorem c2_missing_or_empty_idea_yields_400_witness :
    analyze happyEnv (Json.obj []) =
      .ok (400, Json.obj [("error", Json.str "No idea provided")]) ∧
    analyze happyEnv (Json.obj [("idea", Json.str "")]) =
      .ok (400, Json.obj [("error", Json.str "No idea provided")]) :=
  ⟨c2_missing_or_empty_idea_yields_400 happyEnv [] (Or.inl rfl),
   c2_missing_or_empty_idea_yields_400 happyEnv [("idea", Json.str "")] (Or.inr rfl)⟩

/-- C9: the pipeline is deterministic.  For a fixed request body and
upstream stubs that agree pointwise (same completion for every chat
request, same response for every post, same parser, same token), two runs
of the `/analyze` view produce identical responses: the pipeline consults
nothing but its input and those collaborators. -/
theorem c9_deterministic_pipeline (env1 env2 : Upstream) (data : Json)
    (hchat : ∀ r, env1.chat r = env2.chat r)
    (hpost : ∀ r, env1.post r = env2.post r)
    (hloads : ∀ s, env1.json_loads s = env2.json_loads s)
    (htok : env1.producthunt_token = env2.producthunt_token) :
    analyze env1 data = analyze env2 data := by
  obtain ⟨c1, p1, j1, t1⟩ := env1
  obtain ⟨c2, p2, j2, t2⟩ := env2
  have hc : c1 = c2 := funext hchat
  have hp : p1 = p2 := funext hpost
  have hj : j1 = j2 := funext hloads
  subst hc hp hj htok
  rfl

/-- Witness for C9: two identical stub environments and a concrete body. -/
theorem c9_deterministic_pipeline_witness :
    analyze happyEnv (Json.obj [("idea", Json.str "an ai bookkeeping tool")]) =
      analyze happyEnv (Json.obj [("idea", Json.str "an ai bookkeeping tool")]) :=
  c9_deterministic_pipeline happyEnv happyEnv
    (Json.obj [("idea", Json.str "an ai bookkeeping tool")])
    (fun _ => rfl) (fun _ => rfl) (fun _ => rfl) rfl

/-- C3: when the analyzer completion text is not valid JSON, `analyze_idea`
returns the raw-text wrapper instead of raising, and for a non-empty idea
the endpoint continues with the rest of the pipeline, invoking the Search
Client with the empty keyword sequence (the default taken when `keywords`
is absent from the fallback object). -/
theorem c3_nonjson_fallback_continues_with_empty_keywords
    (env : Upstream) (idea t : String)
    (hchat : env.chat (analyze_req (Json.str idea)) = .ok t)
    (hloads : env.json_loads (pyStrip t) = none)
    (hne : idea ≠ "") :
    analyze_idea env (Json.str idea) = .ok (Json.obj [("raw", Json.str (pyStrip t))]) ∧
    analyze env (Json.obj [("idea", Json.str idea)]) =
      pipeline_after_analysis env (Json.str idea)
        (Json.obj [("raw", Json.str (pyStrip t))]) (Json.arr []) := by
  have hai : analyze_idea env (Json.str idea) = .ok (Json.obj [("raw", Json.str (pyStrip t))]) := by
    unfold analyze_idea
    simp only [Bind.bind]
    rw [hchat]
    simp [Except.bind, hloads, Pure.pure, Except.pure]
  refine ⟨hai, ?_⟩
  have hidea : (Json.obj [("idea", Json.str idea)]).dictGet "idea" (Json.str "") =
      .ok (Json.str idea) := rfl
  have hemp : idea.isEmpty = false := by
    cases hcase : idea.isEmpty
    · rfl
    · exact absurd ((String.isEmpty_iff idea).mp hcase) hne
  have ht : (Json.str idea).truthy = true := by
    simp [Json.truthy, hemp]
  have hkw : (Json.obj [("raw", Json.str (pyStrip t))]).dictGet "keywords" (Json.arr []) =
      .ok (Json.arr []) := rfl
  have h := analyze_eq_pipeline env (Json.obj [("idea", Json.str idea)]) (Json.str idea)
    (Json.obj [("raw", Json.str (pyStrip t))]) (Json.arr []) hidea ht hai hkw
  simpa [keywords_normalize] using h

/-- Witness for C3: the degraded stub environment, whose analyzer call
returns non-JSON text, on the idea "candles". -/
theorem c3_nonjson_fallback_continues_with_empty_keywords_witness :
    analyze_idea degradedEnv (Json.str "candles") =
      .ok (Json.obj [("raw", Json.str "sorry, I cannot do that")]) ∧
    analyze degradedEnv (Json.obj [("idea", Json.str "candles")]) =
      pipeline_after_analysis degradedEnv (Json.str "candles")
        (Json.obj [("raw", Json.str "sorry, I cannot do that")]) (Json.arr []) := by
  have h := c3_nonjson_fallback_continues_with_empty_keywords degradedEnv
    "candles" " sorry, I cannot do that " (by rfl) (by rfl) (by decide)
  have e : pyStrip " sorry, I cannot do that " = "sorry, I cannot do that" := by decide
  rw [e] at h
  exact h

/-- C1: for every request body binding `idea` to a non-empty string, if the
view returns a response it built itself (all upstream calls succeeded),
that response has status 200 and its body is an object with exactly the
three top-level keys `analysis`, `similar_products` and
`competitive_advantage`, bound to the analyzer result, the summary-enriched
product list, and the advisor text respectively. -/
theorem c1_success_response_has_three_keys (env : Upstream)
    (fs : List (String × Json)) (s : String) (res : Nat × Json)
    (hidea : Json.lookup fs "idea" = some (Json.str s))
    (hne : s ≠ "")
    (hok : analyze env (Json.obj fs) = .ok res) :
    res.1 = 200 ∧
    ∃ a kw ps0 ps c,
      analyze_idea env (Json.str s) = .ok a ∧
      a.dictGet "keywords" (Json.arr []) = .ok kw ∧
      search_product_hunt env (keywords_normalize kw) = .ok ps0 ∧
      enrich_products env ps0 = .ok ps ∧
      suggest_competitive_advantage env (Json.str s) ps = .ok c ∧
      res.2 = Json.obj
        [("analysis", a),
         ("similar_products", Json.arr ps),
         ("competitive_advantage", Json.str c)] := by
  have hget : (Json.obj fs).dictGet "idea" (Json.str "") = .ok (Json.str s) := by
    simp [Json.dictGet, hidea]
  have hemp : s.isEmpty = false := by
    cases hcase : s.isEmpty
    · rfl
    · exact absurd ((String.isEmpty_iff s).mp hcase) hne
  have ht : (Json.str s).truthy = true := by
    simp [Json.truthy, hemp]
  obtain ⟨a, kw, ps0, ps, c, h1, h2, h3, h4, h5, h6⟩ :=
    analyze_ok_inv env (Json.obj fs) (Json.str s) res hget ht hok
  exact ⟨by rw [h6], a, kw, ps0, ps, c, h1, h2, h3, h4, h5, by rw [h6]⟩

/-- Witness for C1: the happy-path stub environment on a concrete idea. -/
theorem c1_success_response_has_three_keys_witness :
    ((200 : Nat), happyResponse).1 = 200 ∧
    ∃ a kw ps0 ps c,
      analyze_idea happyEnv (Json.str "an ai bookkeeping tool") = .ok a ∧
      a.dictGet "keywords" (Json.arr []) = .ok kw ∧
      search_product_hunt happyEnv (keywords_normalize kw) = .ok ps0 ∧
      enrich_products happyEnv ps0 = .ok ps ∧
      suggest_competitive_advantage happyEnv (Json.str "an ai bookkeeping tool") ps = .ok c ∧
      ((200 : Nat), happyResponse).2 = Json.obj
        [("analysis", a),
         ("similar_products", Json.arr ps),
         ("competitive_advantage", Json.str c)] :=
  c1_success_response_has_three_keys happyEnv
    [("idea", Json.str "an ai bookkeeping tool")] "an ai bookkeeping tool"
    (200, happyResponse) rfl (by decide) rfl

/-- C10: the keyword normalization does not mutate the analysis object.
When the analyzer result binds `keywords` to a comma-joined string, the
`analysis` value of a successful 200 response is that very object,
keywords still the original un-split string; only a local copy is split
for the search step. -/
theorem c10_analysis_unchanged_in_response (env : Upstream)
    (fs : List (String × Json)) (sIdea : String) (a : Json) (s : String)
    (res : Nat × Json)
    (hidea : Json.lookup fs "idea" = some (Json.str sIdea))
    (hne : sIdea ≠ "")
    (ha : analyze_idea env (Json.str sIdea) = .ok a)
    (hkw : a.dictGet "keywords" (Json.arr []) = .ok (Json.str s))
    (hok : analyze env (Json.obj fs) = .ok res) :
    ∃ ps c,
      res.2 = Json.obj
        [("analysis", a),
         ("similar_products", Json.arr ps),
         ("competitive_advantage", Json.str c)] ∧
      a.dictGet "keywords" (Json.arr []) = .ok (Json.str s) := by
  have hget : (Json.obj fs).dictGet "idea" (Json.str "") = .ok (Json.str sIdea) := by
    simp [Json.dictGet, hidea]
  have hemp : sIdea.isEmpty = false := by
    cases hcase : sIdea.isEmpty
    · rfl
    · exact absurd ((String.isEmpty_iff sIdea).mp hcase) hne
  have ht : (Json.str sIdea).truthy = true := by
    simp [Json.truthy, hemp]
  obtain ⟨a2, kw, ps0, ps, c, h1, h2, h3, h4, h5, h6⟩ :=
    analyze_ok_inv env (Json.obj fs) (Json.str sIdea) res hget ht hok
  have haa : a2 = a := by
    rw [ha] at h1
    injection h1 with h
    exact h.symm
  subst haa
  exact ⟨ps, c, by rw [h6], hkw⟩

/-- Witness for C10: under `happyEnv` the analyzer returns `keywords` as
the single string "ai, finance, saas", and the response carries it
unchanged. -/
theorem c10_analysis_unchanged_in_response_witness :
    ∃ ps c,
      ((200 : Nat), happyResponse).2 = Json.obj
        [("analysis", happyAnalysis),
         ("similar_products", Json.arr ps),
         ("competitive_advantage", Json.str c)] ∧
      happyAnalysis.dictGet "keywords" (Json.arr []) = .ok (Json.str "ai, finance, saas") :=
  c10_analysis_unchanged_in_response happyEnv
    [("idea", Json.str "an ai bookkeeping tool")] "an ai bookkeeping tool"
    happyAnalysis "ai, finance, saas" (200, happyResponse)
    rfl (by decide) rfl rfl rfl

/-- C6: the `keywords` value from the analysis is normalized for the Search
Client: a comma-joined string becomes exactly the comma-split,
whitespace-stripped sequence (e.g. "ai, finance, saas" becomes
["ai", "finance", "saas"]), a list passes through unchanged, and the view
hands exactly the normalized value to the post-analysis pipeline, whose
first step is the Search Client. -/
theorem c6_keyword_normalization (s : String) (xs : List Json)
    (env : Upstream) (data user_idea a kw : Json)
    (hidea : data.dictGet "idea" (Json.str "") = .ok user_idea)
    (ht : user_idea.truthy = true)
    (ha : analyze_idea env user_idea = .ok a)
    (hkw : a.dictGet "keywords" (Json.arr []) = .ok kw) :
    keywords_normalize (Json.str s) =
      Json.arr (((pySplitComma s).map pyStrip).map Json.str) ∧
    keywords_normalize (Json.arr xs) = Json.arr xs ∧
    keywords_normalize (Json.str "ai, finance, saas") =
      Json.arr [Json.str "ai", Json.str "finance", Json.str "saas"] ∧
    analyze env data = pipeline_after_analysis env user_idea a (keywords_normalize kw) :=
  ⟨rfl, rfl, by rfl, analyze_eq_pipeline env data user_idea a kw hidea ht ha hkw⟩

/-- Witness for C6: the happy-path environment, whose analysis carries the
comma-joined keyword string. -/
theorem c6_keyword_normalization_witness :
    keywords_normalize (Json.str "ai, finance, saas") =
      Json.arr (((pySplitComma "ai, finance, saas").map pyStrip).map Json.str) ∧
    keywords_normalize (Json.arr [Json.str "a"]) = Json.arr [Json.str "a"] ∧
    keywords_normalize (Json.str "ai, finance, saas") =
      Json.arr [Json.str "ai", Json.str "finance", Json.str "saas"] ∧
    analyze happyEnv (Json.obj [("idea", Json.str "an ai bookkeeping tool")]) =
      pipeline_after_analysis happyEnv (Json.str "an ai bookkeeping tool")
        happyAnalysis (keywords_normalize (Json.str "ai, finance, saas")) :=
  c6_keyword_normalization "ai, finance, saas" [Json.str "a"] happyEnv
    (Json.obj [("idea", Json.str "an ai bookkeeping tool")])
    (Json.str "an ai bookkeeping tool") happyAnalysis
    (Json.str "ai, finance, saas") rfl rfl rfl rfl

/-- C4: when the product-discovery API answers with a non-200 status,
`search_product_hunt` does not raise but returns the empty list, and a
request whose other upstream calls succeed still completes with status 200
and an empty `similar_products` list. -/
theorem c4_search_error_degrades_to_empty (env : Upstream)
    (data user_idea a kw : Json) (ks : List String) (resp : HttpResp)
    (ctext : String)
    (hidea : data.dictGet "idea" (Json.str "") = .ok user_idea)
    (ht : user_idea.truthy = true)
    (ha : analyze_idea env user_idea = .ok a)
    (hkw : a.dictGet "keywords" (Json.arr []) = .ok kw)
    (hjoin : (keywords_normalize kw).joinable = .ok ks)
    (hpost : env.post (search_post_req env.producthunt_token
        (String.intercalate ", " ks)) = .ok resp)
    (hstatus : resp.status_code ≠ 200)
    (hadvise : env.chat (advise_req user_idea "") = .ok ctext) :
    search_product_hunt env (keywords_normalize kw) = .ok [] ∧
    analyze env data = .ok (200, Json.obj
      [("analysis", a),
       ("similar_products", Json.arr []),
       ("competitive_advantage", Json.str (pyStrip ctext))]) := by
  have hsearch : search_product_hunt env (keywords_normalize kw) = .ok [] := by
    unfold search_product_hunt
    simp only [Bind.bind]
    rw [hjoin]
    simp only [Except.bind]
    rw [hpost]
    simp [Except.bind, hstatus, Pure.pure, Except.pure]
  refine ⟨hsearch, ?_⟩
  rw [analyze_eq_pipeline env data user_idea a kw hidea ht ha hkw]
  unfold pipeline_after_analysis
  simp only [Bind.bind]
  rw [hsearch]
  simp only [Except.bind]
  rw [List.mapM_nil]
  simp only [Pure.pure, Except.pure]
  unfold suggest_competitive_advantage
  simp only [Bind.bind, List.length_nil, List.range_zero, List.zip_nil_right]
  rw [List.mapM_nil]
  simp only [Pure.pure, Except.pure, Except.bind]
  rw [show String.intercalate "\n\n" [] = "" from rfl]
  rw [hadvise]

/-- Witness for C4: the degraded environment, whose discovery API answers
HTTP 500 while the LLM calls succeed. -/
theorem c4_search_error_degrades_to_empty_witness :
    search_product_hunt degradedEnv (keywords_normalize (Json.arr [])) = .ok [] ∧
    analyze degradedEnv (Json.obj [("idea", Json.str "candles")]) =
      .ok (200, Json.obj
        [("analysis", Json.obj [("raw", Json.str "sorry, I cannot do that")]),
         ("similar_products", Json.arr []),
         ("competitive_advantage", Json.str (pyStrip " - Differentiate on price. "))]) :=
  c4_search_error_degrades_to_empty degradedEnv
    (Json.obj [("idea", Json.str "candles")]) (Json.str "candles")
    (Json.obj [("raw", Json.str "sorry, I cannot do that")]) (Json.arr [])
    [] { status_code := 500, text := "Internal Server Error", jsonBody := .ok Json.null }
    " - Differentiate on price. "
    rfl rfl (by rfl) rfl rfl rfl (by decide) rfl

/-- C8 counterexample: the claimed invariant (exactly one of the structured
fields or the raw fallback populated, never both) fails on the code.  The
completion text here is valid JSON, and Python `json.loads` returns for it
exactly the dict binding both `raw` and `keywords`; `analyze_idea` returns
that parsed object verbatim, so both variants are populated at once. -/
theorem c8_counterexample_both_variants :
    analyze_idea bothVariantsEnv (Json.str "an idea") = .ok bothVariantsObj ∧
    bothVariantsObj.item "raw" = .ok (Json.str "x") ∧
    bothVariantsObj.item "keywords" = .ok (Json.arr []) :=
  ⟨rfl, rfl, rfl⟩

/-- C8 amended: the parse-failure branch of `analyze_idea` populates
exactly the `raw` wrapper (a one-key object), and the parse-success branch
returns the parsed JSON verbatim — so the exactly-one-variant invariant
holds precisely when the parsed object itself satisfies it (as it does
whenever the model honors the prompt schema). -/
theorem c8_fallback_exactly_raw (env : Upstream) (idea_text : Json) (t : String)
    (hchat : env.chat (analyze_req idea_text) = .ok t) :
    (env.json_loads (pyStrip t) = none →
      analyze_idea env idea_text = .ok (Json.obj [("raw", Json.str (pyStrip t))])) ∧
    (∀ p, env.json_loads (pyStrip t) = some p →
      analyze_idea env idea_text = .ok p) := by
  constructor
  · intro hloads
    unfold analyze_idea
    simp only [Bind.bind]
    rw [hchat]
    simp [Except.bind, hloads, Pure.pure, Except.pure]
  · intro p hloads
    unfold analyze_idea
    simp only [Bind.bind]
    rw [hchat]
    simp [Except.bind, hloads, Pure.pure, Except.pure]

/-- Witness for the amended C8: both branches exercised on concrete
parsers. -/
theorem c8_fallback_exactly_raw_witness :
    (degradedEnv.json_loads (pyStrip " sorry, I cannot do that ") = none →
      analyze_idea degradedEnv (Json.str "candles") =
        .ok (Json.obj [("raw", Json.str (pyStrip " sorry, I cannot do that "))])) ∧
    (∀ p, degradedEnv.json_loads (pyStrip " sorry, I cannot do that ") = some p →
      analyze_idea degradedEnv (Json.str "candles") = .ok p) :=
  c8_fallback_exactly_raw degradedEnv (Json.str "candles")
    " sorry, I cannot do that " rfl

/-- C5 counterexample: a summarizer call can succeed while returning an
empty completion; the stored `summary` field is then the empty string, so
"every element contains a non-empty summary whenever the Summarizer call
succeeds" fails on the code. -/
theorem c5_counterexample_empty_summary :
    summarize_product emptySummaryEnv sampleProduct = .ok "" ∧
    analyze emptySummaryEnv (Json.obj [("idea", Json.str "candles")]) =
      .ok (200, Json.obj
        [("analysis", Json.obj [("raw", Json.str "x")]),
         ("similar_products", Json.arr [emptySummaryProduct]),
         ("competitive_advantage", Json.str "x")]) ∧
    emptySummaryProduct.item "summary" = .ok (Json.str "") :=
  ⟨rfl, rfl, rfl⟩

/-- C5 amended: in every 200 response each element of `similar_products`
carries a `summary` key holding exactly the (stripped, possibly empty)
text a successful summarizer call returned for it; and if the
summarization step raises, the error propagates and the whole request
fails (surfaced by Flask as a 5xx server error), with no partial result
returned. -/
theorem c5_summary_stored_and_raise_is_fatal (env : Upstream)
    (data user_idea : Json)
    (hidea : data.dictGet "idea" (Json.str "") = .ok user_idea)
    (ht : user_idea.truthy = true) :
    (∀ res, analyze env data = .ok res →
      ∃ a ps c,
        res = (200, Json.obj
          [("analysis", a),
           ("similar_products", Json.arr ps),
           ("competitive_advantage", Json.str c)]) ∧
        ∀ p ∈ ps, ∃ p0 s, summarize_product env p0 = .ok s ∧
          p.item "summary" = .ok (Json.str s)) ∧
    (∀ (a kw : Json) (ps0 : List Json) (e : Err),
      analyze_idea env user_idea = .ok a →
      a.dictGet "keywords" (Json.arr []) = .ok kw →
      search_product_hunt env (keywords_normalize kw) = .ok ps0 →
      enrich_products env ps0 = .error e →
      analyze env data = .error e) := by
  constructor
  · intro res hok
    obtain ⟨a, kw, ps0, ps, c, h1, h2, h3, h4, h5, h6⟩ :=
      analyze_ok_inv env data user_idea res hidea ht hok
    refine ⟨a, ps, c, h6, ?_⟩
    intro p hp
    obtain ⟨p0, hp0, s, hs, hset, hitem⟩ := enrich_products_mem env ps0 ps h4 p hp
    exact ⟨p0, s, hs, hitem⟩
  · intro a kw ps0 e ha hkw hsearch henrich
    rw [analyze_eq_pipeline env data user_idea a kw hidea ht ha hkw]
    unfold pipeline_after_analysis
    simp only [Bind.bind]
    rw [hsearch]
    simp only [bind_ok_eq]
    have h2 : List.mapM (fun prod => Except.bind (summarize_product env prod)
        (fun s => prod.setItem "summary" (Json.str s))) ps0 = Except.error e := henrich
    rw [h2, bind_error_eq]

/-- Witness for the amended C5: a raising summarizer makes the whole
request fail with the propagated error. -/
theorem c5_summary_stored_and_raise_is_fatal_witness :
    analyze failingSummaryEnv (Json.obj [("idea", Json.str "candles")]) =
      .error (.upstream "boom") :=
  (c5_summary_stored_and_raise_is_fatal failingSummaryEnv
      (Json.obj [("idea", Json.str "candles")]) (Json.str "candles") rfl rfl).2
    (Json.obj [("raw", Json.str "x")]) (Json.arr []) [sampleProduct]
    (.upstream "boom") rfl rfl rfl rfl

/-- C7: `search_product_hunt` issues one GraphQL post whose payload holds
the fixed query document (first 5 results ordered by votes) and whose
search term is the comma+space join of the keywords; on a 200 response it
maps each returned edge to a product record — one record per edge, so at
most 5 when the upstream honors the requested page size — and each
well-formed node yields the seven-field record with the nested topic-edge
structure flattened to a list of topic names. -/
theorem c7_search_request_and_mapping (env : Upstream) (keywords : Json)
    (ks : List String) (resp : HttpResp) (body d1 d2 edgesVal : Json)
    (es prods : List Json)
    (idv name tagline description url createdAt votes cc makers : Json)
    (ts : List String)
    (hjoin : keywords.joinable = .ok ks)
    (hpost : env.post (search_post_req env.producthunt_token
        (String.intercalate ", " ks)) = .ok resp)
    (h200 : resp.status_code = 200)
    (hbody : resp.jsonBody = .ok body)
    (hd1 : body.dictGet "data" (Json.obj []) = .ok d1)
    (hd2 : d1.dictGet "posts" (Json.obj []) = .ok d2)
    (hedges : d2.dictGet "edges" (Json.arr []) = .ok edgesVal)
    (hiter : edgesVal.pyIter = .ok es)
    (hmap : es.mapM extract_post = .ok prods) :
    search_product_hunt env keywords = .ok prods ∧
    prods.length = es.length ∧
    (es.length ≤ 5 → prods.length ≤ 5) ∧
    (search_post_req env.producthunt_token (String.intercalate ", " ks)).body =
      Json.obj [("query", Json.str search_query),
                ("variables", Json.obj [("term", Json.str (String.intercalate ", " ks))])] ∧
    extract_post (Json.obj [("node", Json.obj
        [("id", idv),
         ("name", name),
         ("tagline", tagline),
         ("description", description),
         ("url", url),
         ("createdAt", createdAt),
         ("votesCount", votes),
         ("commentsCount", cc),
         ("topics", Json.obj [("edges", Json.arr (ts.map topic_edge))]),
         ("makers", makers)])]) =
      .ok (Json.obj
        [("name", name),
         ("tagline", tagline),
         ("description", description),
         ("url", url),
         ("created_at", createdAt),
         ("votes", votes),
         ("topics", Json.arr (ts.map Json.str))]) := by
  have hlen : prods.length = es.length := mapM_ok_length extract_post es prods hmap
  have hsearch : search_product_hunt env keywords = .ok prods := by
    unfold search_product_hunt
    simp only [Bind.bind]
    rw [hjoin]
    simp only [bind_ok_eq]
    rw [hpost]
    simp only [bind_ok_eq]
    rw [h200]
    simp only [show ((200 : Nat) == 200) = true from rfl, if_true]
    rw [hbody]
    simp only [bind_ok_eq]
    rw [hd1]
    simp only [bind_ok_eq]
    rw [hd2]
    simp only [bind_ok_eq]
    rw [hedges]
    simp only [bind_ok_eq]
    rw [hiter]
    simp only [bind_ok_eq]
    exact hmap
  exact ⟨hsearch, hlen, fun h5 => hlen ▸ h5, rfl,
    extract_post_node idv name tagline description url createdAt votes cc makers ts⟩

/-- Witness for C7: the happy-path environment with the sample node. -/
theorem c7_search_request_and_mapping_witness :
    search_product_hunt happyEnv (Json.arr [Json.str "ai", Json.str "finance", Json.str "saas"]) =
      .ok [sampleProduct] ∧
    [sampleProduct].length = [Json.obj [("node", sampleNode)]].length ∧
    ([Json.obj [("node", sampleNode)]].length ≤ 5 → [sampleProduct].length ≤ 5) ∧
    (search_post_req happyEnv.producthunt_token
        (String.intercalate ", " ["ai", "finance", "saas"])).body =
      Json.obj [("query", Json.str search_query),
                ("variables", Json.obj [("term",
                  Json.str (String.intercalate ", " ["ai", "finance", "saas"]))])] ∧
    extract_post (Json.obj [("node", Json.obj
        [("id", Json.str "1"),
         ("name", Json.str "Acme"),
         ("tagline", Json.str "Tag"),
         ("description", Json.str "Desc"),
         ("url", Json.str "u"),
         ("createdAt", Json.str "2020"),
         ("votesCount", Json.num 10),
         ("commentsCount", Json.num 2),
         ("topics", Json.obj [("edges", Json.arr (["AI"].map topic_edge))]),
         ("makers", Json.obj [("edges", Json.arr [])])])]) =
      .ok (Json.obj
        [("name", Json.str "Acme"),
         ("tagline", Json.str "Tag"),
         ("description", Json.str "Desc"),
         ("url", Json.str "u"),
         ("created_at", Json.str "2020"),
         ("votes", Json.num 10),
         ("topics", Json.arr (["AI"].map Json.str))]) :=
  c7_search_request_and_mapping happyEnv
    (Json.arr [Json.str "ai", Json.str "finance", Json.str "saas"])
    ["ai", "finance", "saas"]
    { status_code := 200, text := "", jsonBody := .ok sampleSearchBody }
    sampleSearchBody
    (Json.obj [("posts", Json.obj [("edges", Json.arr [Json.obj [("node", sampleNode)]])])])
    (Json.obj [("edges", Json.arr [Json.obj [("node", sampleNode)]])])
    (Json.arr [Json.obj [("node", sampleNode)]])
    [Json.obj [("node", sampleNode)]]
    [sampleProduct]
    (Json.str "1") (Json.str "Acme") (Json.str "Tag") (Json.str "Desc")
    (Json.str "u") (Json.str "2020") (Json.num 10) (Json.num 2)
    (Json.obj [("edges", Json.arr [])]) ["AI"]
    rfl rfl rfl rfl rfl rfl rfl rfl rfl
